import Mathlib

/-!
Verification of the notes CRUD application (Python/FastAPI/SQLAlchemy)
as a shallow embedding in Lean 4.

Embedding conventions:
* A content string is a `List Char`; Python `str.strip()` becomes `pyStrip`,
  with `Char.isWhitespace` standing for Python's whitespace test.
* Pydantic validation of `NoteBase.content` (src/app/schemas/note.py) is the
  composition of the `Field(min_length=1, max_length=5000)` core checks
  (which run on the raw string, before the validator) and the
  `validate_content` field validator (mode "after").
* The database session is a `DBState`: the list of rows of the `notes` table
  in store order, a fresh-id source standing for `uuid.uuid4`, and a
  monotone clock `now` standing for the store's `func.now()`; the clock
  ticks at every successful commit, so timestamps written by distinct
  commits are distinct (the store's clock resolution).
* A storage failure (`SQLAlchemyError` raised at commit) is modelled by a
  boolean `fail` passed to each mutating operation; the `except` handler
  `rollback(); raise` of NoteService means the pre-operation state is
  restored and the error is returned, which the embedding renders as the
  pair `(.error .storage, σ)`.
-/

namespace NotesApp

/-- Decidable equality of `Except` results, so that witnesses can be
checked by evaluation. -/
instance {ε α : Type} [DecidableEq ε] [DecidableEq α] : DecidableEq (Except ε α) := fun a b =>
  match a, b with
  | .ok x, .ok y =>
      if h : x = y then isTrue (by rw [h]) else isFalse (by intro hh; cases hh; exact h rfl)
  | .error x, .error y =>
      if h : x = y then isTrue (by rw [h]) else isFalse (by intro hh; cases hh; exact h rfl)
  | .ok _, .error _ => isFalse (fun h => Except.noConfusion h)
  | .error _, .ok _ => isFalse (fun h => Except.noConfusion h)

/-- Python `str.strip()` on a list of characters: drop leading and trailing
whitespace, keep internal whitespace verbatim. -/
def pyStrip (s : List Char) : List Char :=
  (((s.dropWhile Char.isWhitespace).reverse).dropWhile Char.isWhitespace).reverse

/-- The validation-error taxonomy of the spec for `NoteBase.content`:
`empty` covers the pydantic `min_length=1` violation (which fires exactly on
the empty string) together with the validator's
`ValueError("Note content cannot be empty or whitespace only")`;
`tooLong` covers the pydantic `max_length=5000` violation together with the
validator's `ValueError("Note content cannot exceed 5000 characters")`. -/
inductive ContentError where
  | empty
  | tooLong
deriving DecidableEq, Repr

/-- `NoteBase.validate_content` (src/app/schemas/note.py, lines 22-46):
reject empty or whitespace-only content, strip (the source's local
`cleaned = v.strip()` is written inline as `pyStrip v`), reject stripped
content longer than 5000 characters, return the stripped content. -/
def validate_content (v : List Char) : Except ContentError (List Char) :=
  if v = [] ∨ pyStrip v = [] then .error .empty
  else if 5000 < (pyStrip v).length then .error .tooLong
  else .ok (pyStrip v)

/-- Validation of `NoteBase.content` as pydantic performs it
(src/app/schemas/note.py, lines 15-46): the `Field` core constraints
`min_length=1` and `max_length=5000` run first, on the raw string, and only
then does the after-mode validator `validate_content` run. -/
def validate (s : List Char) : Except ContentError (List Char) :=
  if s.length < 1 then .error .empty
  else if 5000 < s.length then .error .tooLong
  else validate_content s

/-- A row of the `notes` table (src/app/models/note.py): UUID primary key
(modelled as a `Nat`), text content, and the two audit timestamps
(modelled as `Nat` clock ticks). -/
structure Note where
  id : Nat
  content : List Char
  created_at : Nat
  updated_at : Nat
deriving DecidableEq, Repr

/-- `Note.update_content` (src/app/models/note.py, lines 65-79): raise
`ValueError` when the new content is empty or whitespace-only, otherwise
store the stripped content; `updated_at` is refreshed by the SQLAlchemy
`onupdate=func.now()` hook at commit time, which the embedding folds in by
passing the commit-time clock value `now`. -/
def Note.update_content (n : Note) (new_content : List Char) (now : Nat) :
    Except Unit Note :=
  if new_content = [] ∨ pyStrip new_content = [] then .error ()
  else .ok { n with content := pyStrip new_content, updated_at := now }

/-- The state of the database session: the rows of the `notes` table in
store order, the next fresh id (`uuid.uuid4`), and the store clock
(`func.now()`). -/
structure DBState where
  notes : List Note
  nextId : Nat
  now : Nat
deriving DecidableEq, Repr

/-- Errors a NoteService operation can raise: `storage` is a
`SQLAlchemyError` at commit, `valueError` a `ValueError` escaping
`Note.update_content`. -/
inductive ServiceError where
  | storage
  | valueError
deriving DecidableEq, Repr

/-- `NoteService.get_note_by_id` (src/app/services/note_service.py, lines
68-78): `query(Note).filter(Note.id == note_id).first()`, the first row of
the table whose id matches. -/
def get_note_by_id (σ : DBState) (note_id : Nat) : Option Note :=
  σ.notes.find? (fun n => n.id == note_id)

/-- `NoteService.get_all_notes` (src/app/services/note_service.py, lines
80-91): `query(Note).offset(skip).limit(limit).all()`; the Python defaults
are `skip=0, limit=100`. -/
def get_all_notes (σ : DBState) (skip limit : Nat) : List Note :=
  (σ.notes.drop skip).take limit

/-- `NoteService.create_note` (src/app/services/note_service.py, lines
40-66): build `Note(content=note_data.content)` with a fresh id and both
timestamps set to the commit clock, insert it, commit; on `SQLAlchemyError`
roll back and re-raise. -/
def create_note (σ : DBState) (note_data : List Char) (fail : Bool) :
    Except ServiceError Note × DBState :=
  let db_note : Note :=
    { id := σ.nextId, content := note_data,
      created_at := σ.now, updated_at := σ.now }
  if fail then (.error .storage, σ)
  else (.ok db_note,
        { notes := σ.notes ++ [db_note], nextId := σ.nextId + 1,
          now := σ.now + 1 })

/-- Replace the first row with the given id by `n'`: the in-place mutation
of the single object returned by `first()`. -/
def replaceFirstById (notes : List Note) (note_id : Nat) (n' : Note) :
    List Note :=
  match notes with
  | [] => []
  | m :: rest =>
      if m.id == note_id then n' :: rest
      else m :: replaceFirstById rest note_id n'

/-- `NoteService.update_note` (src/app/services/note_service.py, lines
93-125): look up by id, return `None` (NotFound) before any commit when
absent; otherwise run `Note.update_content` (a `ValueError` from it is not
a `SQLAlchemyError`, so it propagates with the session unflushed), commit;
on `SQLAlchemyError` roll back and re-raise. -/
def update_note (σ : DBState) (note_id : Nat) (note_data : List Char)
    (fail : Bool) : Except ServiceError (Option Note) × DBState :=
  match get_note_by_id σ note_id with
  | none => (.ok none, σ)
  | some db_note =>
      match db_note.update_content note_data σ.now with
      | .error _ => (.error .valueError, σ)
      | .ok n' =>
          if fail then (.error .storage, σ)
          else (.ok (some n'),
                { σ with notes := replaceFirstById σ.notes note_id n',
                         now := σ.now + 1 })

/-- `NoteService.delete_note` (src/app/services/note_service.py, lines
127-155): look up by id, return `False` before any commit when absent;
otherwise delete the found row, commit, return `True`; on
`SQLAlchemyError` roll back and re-raise. -/
def delete_note (σ : DBState) (note_id : Nat) (fail : Bool) :
    Except ServiceError Bool × DBState :=
  match get_note_by_id σ note_id with
  | none => (.ok false, σ)
  | some _ =>
      if fail then (.error .storage, σ)
      else (.ok true,
            { σ with notes := σ.notes.eraseP (fun n => n.id == note_id),
                     now := σ.now + 1 })

/-- The home-page handler `web_index` (src/app/routers/web.py, lines
46-48): `service.get_all_notes()` with the service's default pagination
arguments `skip=0, limit=100`. -/
def web_index (σ : DBState) : List Note :=
  get_all_notes σ 0 100

/-- Well-formedness of a session state: row ids are pairwise distinct (the
primary-key constraint) and below the fresh-id source, every stored
timestamp predates the current clock, and `created_at ≤ updated_at`. -/
def WF (σ : DBState) : Prop :=
  (σ.notes.map Note.id).Nodup ∧
  ∀ n ∈ σ.notes,
    n.id < σ.nextId ∧ n.updated_at < σ.now ∧ n.created_at ≤ n.updated_at

instance (σ : DBState) : Decidable (WF σ) := by
  unfold WF; infer_instance

/-- The content invariant of a stored row: non-empty, not whitespace-only,
and equal to its own stripped form. -/
def ContentOK (n : Note) : Prop :=
  n.content ≠ [] ∧ pyStrip n.content ≠ [] ∧ pyStrip n.content = n.content

instance (n : Note) : Decidable (ContentOK n) := by
  unfold ContentOK; infer_instance

/-- Every stored row satisfies the content invariant. -/
def NotesOK (σ : DBState) : Prop :=
  ∀ n ∈ σ.notes, ContentOK n

instance (σ : DBState) : Decidable (NotesOK σ) := by
  unfold NotesOK; infer_instance

/-! ### Basic facts about `pyStrip` -/

theorem pyStrip_eq_rdropWhile (l : List Char) :
    pyStrip l = List.rdropWhile Char.isWhitespace (List.dropWhile Char.isWhitespace l) := rfl

theorem pyStrip_length_le (l : List Char) : (pyStrip l).length ≤ l.length := by
  rw [pyStrip_eq_rdropWhile]
  exact le_trans ( List.rdropWhile_prefix _ _).length_le (List.dropWhile_sublist _).length_le

theorem dropWhile_head_false {p : Char → Bool} {l : List Char} {c : Char} {r : List Char}
    (h : l.dropWhile p = c :: r) : p c = false := by
  have h1 : l.find? (fun x => !p x) = some c := by
    rw [List.find?_not_eq_head?_dropWhile, h]; rfl
  simpa using List.find?_some h1

theorem pyStrip_head_false {l : List Char} {c : Char} {r : List Char}
    (h : pyStrip l = c :: r) : c.isWhitespace = false := by
  obtain ⟨t, ht⟩ := List.rdropWhile_prefix Char.isWhitespace (List.dropWhile Char.isWhitespace l)
  rw [pyStrip_eq_rdropWhile] at h
  rw [h, List.cons_append] at ht
  exact dropWhile_head_false ht.symm

theorem pyStrip_idem (l : List Char) : pyStrip (pyStrip l) = pyStrip l := by
  cases h : pyStrip l with
  | nil => rfl
  | cons c r =>
      have hc := pyStrip_head_false h
      have hd : List.dropWhile Char.isWhitespace (pyStrip l) = pyStrip l := by
        rw [h, List.dropWhile_cons_of_neg (by simp [hc])]
      rw [← h, pyStrip_eq_rdropWhile (pyStrip l), hd, pyStrip_eq_rdropWhile l,
        List.rdropWhile_idempotent]

theorem pyStrip_eq_nil_iff (l : List Char) :
    pyStrip l = [] ↔ ∀ x ∈ l, x.isWhitespace := by
  rw [pyStrip_eq_rdropWhile, List.rdropWhile_eq_nil_iff]
  constructor
  · intro h x hx
    have hx2 : x ∈ l.takeWhile Char.isWhitespace ++ l.dropWhile Char.isWhitespace := by
      rw [List.takeWhile_append_dropWhile]; exact hx
    rcases List.mem_append.mp hx2 with h1 | h2
    · exact List.mem_takeWhile_imp h1
    · exact h x h2
  · intro h x hx
    exact h x ((List.dropWhile_sublist _).subset hx)

theorem dropWhile_replicate_false {p : Char → Bool} {a : Char} (h : p a = false) (n : Nat) :
    List.dropWhile p (List.replicate n a) = List.replicate n a := by
  cases n with
  | zero => rfl
  | succ m => rw [List.replicate_succ, List.dropWhile_cons_of_neg (by simp [h])]

theorem pyStrip_replicate {a : Char} (h : a.isWhitespace = false) (n : Nat) :
    pyStrip (List.replicate n a) = List.replicate n a := by
  unfold pyStrip
  rw [dropWhile_replicate_false h, List.reverse_replicate, dropWhile_replicate_false h,
    List.reverse_replicate]

theorem pyStrip_space_cons (l : List Char) : pyStrip (' ' :: l) = pyStrip l := by
  unfold pyStrip
  rw [List.dropWhile_cons_of_pos (by decide)]

/-! ### Inversion facts about `validate` -/

theorem validate_ok (c d : List Char) (h : validate c = .ok d) :
    d = pyStrip c ∧ d ≠ [] ∧ d.length ≤ 5000 := by
  unfold validate validate_content at h
  split_ifs at h with h1 h2 h3 h4
  have hd := Except.ok.inj h
  refine ⟨hd.symm, ?_, ?_⟩
  · intro hnil
    exact (not_or.mp h3).2 (hd.trans hnil)
  · rw [← hd]
    omega

theorem validate_ok_strip (c d : List Char) (h : validate c = .ok d) :
    pyStrip d = d ∧ d ≠ [] := by
  obtain ⟨h1, h2, _⟩ := validate_ok c d h
  subst h1
  exact ⟨pyStrip_idem c, h2⟩

/-! ### Computation lemmas for the service operations -/

theorem create_note_eq (σ : DBState) (d : List Char) (fail : Bool) :
    create_note σ d fail =
      if fail then (Except.error ServiceError.storage, σ)
      else (Except.ok ⟨σ.nextId, d, σ.now, σ.now⟩,
            ⟨σ.notes ++ [⟨σ.nextId, d, σ.now, σ.now⟩], σ.nextId + 1, σ.now + 1⟩) := rfl

theorem update_note_notfound (σ : DBState) (i : Nat) (d : List Char) (fail : Bool)
    (h : get_note_by_id σ i = none) : update_note σ i d fail = (Except.ok none, σ) := by
  unfold update_note
  rw [h]

theorem update_note_found (σ : DBState) (i : Nat) (n : Note) (d : List Char) (fail : Bool)
    (h : get_note_by_id σ i = some n) (hd1 : d ≠ []) (hd2 : pyStrip d ≠ []) :
    update_note σ i d fail =
      if fail then (Except.error ServiceError.storage, σ)
      else (Except.ok (some ⟨n.id, pyStrip d, n.created_at, σ.now⟩),
            ⟨replaceFirstById σ.notes i ⟨n.id, pyStrip d, n.created_at, σ.now⟩,
             σ.nextId, σ.now + 1⟩) := by
  have hg : ¬(d = [] ∨ pyStrip d = []) := by simp [hd1, hd2]
  cases fail <;> simp [update_note, Note.update_content, h, hg]

theorem delete_note_notfound (σ : DBState) (i : Nat) (fail : Bool)
    (h : get_note_by_id σ i = none) : delete_note σ i fail = (Except.ok false, σ) := by
  unfold delete_note
  rw [h]

theorem delete_note_found (σ : DBState) (i : Nat) (n : Note) (fail : Bool)
    (h : get_note_by_id σ i = some n) :
    delete_note σ i fail =
      if fail then (Except.error ServiceError.storage, σ)
      else (Except.ok true,
            ⟨σ.notes.eraseP (fun m => m.id == i), σ.nextId, σ.now + 1⟩) := by
  unfold delete_note
  rw [h]

/-! ### Structural lemmas about the row list -/

theorem find?_id_eq {l : List Note} {i : Nat} {n : Note}
    (h : l.find? (fun m => m.id == i) = some n) : n.id = i := by
  have := List.find?_some h
  simpa using this

theorem find?_replaceFirstById {l : List Note} {i : Nat} {n' : Note}
    (h : n'.id = i) (hfound : (l.find? (fun m => m.id == i)).isSome) :
    (replaceFirstById l i n').find? (fun m => m.id == i) = some n' := by
  induction l with
  | nil => simp [List.find?] at hfound
  | cons m rest ih =>
      by_cases hm : (m.id == i) = true
      · unfold replaceFirstById
        rw [if_pos hm, List.find?_cons_of_pos _ (by simp [h])]
      · unfold replaceFirstById
        rw [if_neg hm,
          @List.find?_cons_of_neg _ (fun m => m.id == i) m (replaceFirstById rest i n') hm]
        apply ih
        rwa [@List.find?_cons_of_neg _ (fun m => m.id == i) m rest hm] at hfound

theorem mem_replaceFirstById {l : List Note} {i : Nat} {n' m : Note}
    (h : m ∈ replaceFirstById l i n') : m ∈ l ∨ m = n' := by
  induction l with
  | nil => simp [replaceFirstById] at h
  | cons a rest ih =>
      unfold replaceFirstById at h
      by_cases ha : (a.id == i) = true
      · rw [if_pos ha] at h
        rcases List.mem_cons.mp h with h1 | h2
        · exact Or.inr h1
        · exact Or.inl (List.mem_cons_of_mem _ h2)
      · rw [if_neg ha] at h
        rcases List.mem_cons.mp h with h1 | h2
        · exact Or.inl (h1 ▸ List.mem_cons_self _ _)
        · rcases ih h2 with h3 | h4
          · exact Or.inl (List.mem_cons_of_mem _ h3)
          · exact Or.inr h4

theorem find?_eraseP_eq_none {l : List Note} {i : Nat}
    (hnd : (l.map Note.id).Nodup) :
    (l.eraseP (fun m => m.id == i)).find? (fun m => m.id == i) = none := by
  induction l with
  | nil => rfl
  | cons m rest ih =>
      rw [List.map_cons, List.nodup_cons] at hnd
      by_cases hm : (m.id == i) = true
      · rw [@List.eraseP_cons_of_pos _ m rest (fun m => m.id == i) hm, List.find?_eq_none]
        intro x hx
        simp only [beq_iff_eq]
        intro hxi
        exact hnd.1 (List.mem_map.mpr ⟨x, hx, by rw [hxi]; exact (beq_iff_eq.mp hm).symm⟩)
      · rw [@List.eraseP_cons_of_neg _ m rest (fun m => m.id == i) hm,
          @List.find?_cons_of_neg _ (fun m => m.id == i) m (rest.eraseP (fun m => m.id == i)) hm]
        exact ih hnd.2

/-! ### Claims C1 and C2: the validation layer -/

/-- Claim C1, counterexample: the claim quantifies only over the stripped
length, but the pydantic `max_length=5000` constraint runs on the raw
string before the validator strips.  Ex: a space followed by 5000 letters
has non-empty stripped form of length 5000, yet `validate` rejects it as
too long instead of succeeding. -/
theorem C1_counterexample :
    pyStrip (' ' :: List.replicate 5000 'a') ≠ [] ∧
    (pyStrip (' ' :: List.replicate 5000 'a')).length ≤ 5000 ∧
    validate (' ' :: List.replicate 5000 'a') = Except.error ContentError.tooLong ∧
    validate (' ' :: List.replicate 5000 'a') ≠
      Except.ok (pyStrip (' ' :: List.replicate 5000 'a')) := by
  have hps : pyStrip (' ' :: List.replicate 5000 'a') = List.replicate 5000 'a' := by
    rw [pyStrip_space_cons, pyStrip_replicate (by decide)]
  have hlen : (' ' :: List.replicate 5000 'a').length = 5001 := by
    rw [List.length_cons, List.length_replicate]
  have hval : validate (' ' :: List.replicate 5000 'a') = Except.error ContentError.tooLong := by
    unfold validate
    rw [hlen, if_neg (by omega), if_pos (by omega)]
  refine ⟨?_, ?_, hval, ?_⟩
  · rw [hps]
    intro h
    have := congrArg List.length h
    rw [List.length_replicate, List.length_nil] at this
    omega
  · rw [hps, List.length_replicate]
  · rw [hval]
    exact fun h => Except.noConfusion h

/-- Claim C1 (amended): for every content string whose stripped form is
non-empty and whose RAW length is at most 5000 characters, `validate`
succeeds and returns exactly the stripped string (so internal whitespace
is preserved verbatim). -/
theorem C1_validate_ok (s : List Char) (h1 : pyStrip s ≠ [])
    (h2 : s.length ≤ 5000) : validate s = Except.ok (pyStrip s) := by
  have hs : s ≠ [] := by
    intro h
    rw [h] at h1
    exact h1 rfl
  have hlen1 : 0 < s.length := List.length_pos.mpr hs
  have hle := pyStrip_length_le s
  unfold validate validate_content
  rw [if_neg (by omega), if_neg (by omega), if_neg (by simp [hs, h1]),
    if_neg (by omega)]

/-- Witness for C1's amended theorem at a concrete input. -/
theorem C1_witness : validate [' ', 'h', 'i'] = Except.ok (pyStrip [' ', 'h', 'i']) :=
  C1_validate_ok [' ', 'h', 'i'] (by decide) (by decide)

/-- Claim C2, counterexample: a whitespace-only string of 5001 characters
is rejected by the raw `max_length=5000` pydantic constraint before the
validator can classify it as empty, so the failure is the too-long error,
not `EmptyContentError` as the claim requires. -/
theorem C2_counterexample :
    (∀ x ∈ List.replicate 5001 ' ', x.isWhitespace) ∧
    validate (List.replicate 5001 ' ') = Except.error ContentError.tooLong ∧
    validate (List.replicate 5001 ' ') ≠ Except.error ContentError.empty := by
  have hval : validate (List.replicate 5001 ' ') = Except.error ContentError.tooLong := by
    unfold validate
    rw [List.length_replicate, if_neg (by omega), if_pos (by omega)]
  refine ⟨?_, hval, ?_⟩
  · intro x hx
    rw [List.eq_of_mem_replicate hx]
    decide
  · rw [hval]
    exact fun h => ContentError.noConfusion (Except.error.inj h)

/-- Claim C2 (amended): `validate` fails with the empty-content error on
every input that is empty or whitespace-only AND of raw length at most
5000 (longer whitespace-only inputs fail with the too-long error), and it
fails with the too-long error on every input whose stripped length exceeds
5000 characters; validation is a pure function of the string, so both
failures happen before any storage interaction. -/
theorem C2_validate_errors :
    (∀ s : List Char, (∀ x ∈ s, x.isWhitespace) → s.length ≤ 5000 →
        validate s = Except.error ContentError.empty) ∧
    (∀ s : List Char, 5000 < (pyStrip s).length →
        validate s = Except.error ContentError.tooLong) := by
  constructor
  · intro s hws hlen
    by_cases hs : s = []
    · subst hs
      rfl
    · have h1 : 0 < s.length := List.length_pos.mpr hs
      have hps : pyStrip s = [] := (pyStrip_eq_nil_iff s).mpr hws
      unfold validate validate_content
      rw [if_neg (by omega), if_neg (by omega), if_pos (Or.inr hps)]
  · intro s h
    have := pyStrip_length_le s
    unfold validate
    rw [if_neg (by omega), if_pos (by omega)]

/-- Witness for C2's amended theorem at concrete inputs. -/
theorem C2_witness :
    validate [' ', ' '] = Except.error ContentError.empty ∧
    validate (List.replicate 5001 'b') = Except.error ContentError.tooLong :=
  ⟨C2_validate_errors.1 [' ', ' '] (by decide) (by decide),
   C2_validate_errors.2 (List.replicate 5001 'b')
     (by rw [pyStrip_replicate (by decide), List.length_replicate]; omega)⟩

/-! ### Claims C3 to C10: the persistence service -/

/-- Claim C3: round-trip — creating a note from content `c` that passed
validation and looking the returned record's id up in the resulting state
yields exactly that record, whose content is the stripped form of `c`. -/
theorem C3_create_roundtrip (σ : DBState) (c d : List Char) (n : Note)
    (hwf : WF σ) (hv : validate c = Except.ok d)
    (hc : (create_note σ d false).1 = Except.ok n) :
    get_note_by_id (create_note σ d false).2 n.id = some n ∧ n.content = pyStrip c := by
  obtain ⟨hd, -, -⟩ := validate_ok c d hv
  have hres : create_note σ d false =
      (Except.ok ⟨σ.nextId, d, σ.now, σ.now⟩,
       ⟨σ.notes ++ [⟨σ.nextId, d, σ.now, σ.now⟩], σ.nextId + 1, σ.now + 1⟩) := rfl
  rw [hres] at hc ⊢
  have hn : n = ⟨σ.nextId, d, σ.now, σ.now⟩ := (Except.ok.inj hc).symm
  subst hn
  have h1 : σ.notes.find? (fun m => m.id == σ.nextId) = none := by
    rw [List.find?_eq_none]
    intro x hx
    have hxlt := (hwf.2 x hx).1
    simp only [beq_iff_eq]
    omega
  constructor
  · show (σ.notes ++ [(⟨σ.nextId, d, σ.now, σ.now⟩ : Note)]).find?
        (fun m => m.id == σ.nextId) = _
    rw [List.find?_append, h1, Option.none_or, List.find?_cons_of_pos _ (by simp)]
  · exact hd

/-- Witness for C3 at a concrete state and content. -/
theorem C3_witness :
    get_note_by_id (create_note ⟨[], 0, 0⟩ ['h', 'i'] false).2
        (⟨0, ['h', 'i'], 0, 0⟩ : Note).id = some ⟨0, ['h', 'i'], 0, 0⟩ ∧
    (⟨0, ['h', 'i'], 0, 0⟩ : Note).content = pyStrip ['h', 'i'] :=
  C3_create_roundtrip ⟨[], 0, 0⟩ ['h', 'i'] ['h', 'i'] ⟨0, ['h', 'i'], 0, 0⟩
    (by decide) (by decide) (by decide)

/-- Claim C4: updating an absent id returns NotFound (`none`) and leaves
the state untouched regardless of commit outcome (the lookup happens
before any commit); updating a present id stores and returns the record
with its content replaced by the stripped new content. -/
theorem C4_update_semantics (σ : DBState) (i : Nat) (c d : List Char)
    (hv : validate c = Except.ok d) :
    (get_note_by_id σ i = none →
      ∀ fail, update_note σ i d fail = (Except.ok none, σ)) ∧
    (∀ n, get_note_by_id σ i = some n →
      (update_note σ i d false).1 =
        Except.ok (some ⟨n.id, pyStrip d, n.created_at, σ.now⟩) ∧
      get_note_by_id (update_note σ i d false).2 i =
        some ⟨n.id, pyStrip d, n.created_at, σ.now⟩) := by
  obtain ⟨hstr, hne⟩ := validate_ok_strip c d hv
  constructor
  · intro h fail
    exact update_note_notfound σ i d fail h
  · intro n hn
    have hfound := update_note_found σ i n d false hn hne (by rw [hstr]; exact hne)
    rw [if_neg (by simp)] at hfound
    rw [hfound]
    refine ⟨rfl, ?_⟩
    unfold get_note_by_id at hn
    show (replaceFirstById σ.notes i ⟨n.id, pyStrip d, n.created_at, σ.now⟩).find?
        (fun m => m.id == i) = some ⟨n.id, pyStrip d, n.created_at, σ.now⟩
    have hid : n.id = i := find?_id_eq hn
    exact find?_replaceFirstById
      (show (⟨n.id, pyStrip d, n.created_at, σ.now⟩ : Note).id = i from hid)
      (by rw [hn]; rfl)

/-- Witness for C4: absent id 5 is untouched, present id 0 is updated. -/
theorem C4_witness :
    update_note ⟨[⟨0, ['a'], 0, 0⟩], 1, 1⟩ 5 ['b'] true =
      (Except.ok none, ⟨[⟨0, ['a'], 0, 0⟩], 1, 1⟩) ∧
    ((update_note ⟨[⟨0, ['a'], 0, 0⟩], 1, 1⟩ 0 ['b'] false).1 =
        Except.ok (some ⟨0, pyStrip ['b'], 0, 1⟩) ∧
      get_note_by_id (update_note ⟨[⟨0, ['a'], 0, 0⟩], 1, 1⟩ 0 ['b'] false).2 0 =
        some ⟨0, pyStrip ['b'], 0, 1⟩) :=
  ⟨(C4_update_semantics ⟨[⟨0, ['a'], 0, 0⟩], 1, 1⟩ 5 ['b'] ['b'] (by decide)).1
      (by decide) true,
   (C4_update_semantics ⟨[⟨0, ['a'], 0, 0⟩], 1, 1⟩ 0 ['b'] ['b'] (by decide)).2
      ⟨0, ['a'], 0, 0⟩ (by decide)⟩

/-- Claim C5: a successful update keeps `id` and `created_at` unchanged
(the only fields besides `content` and `updated_at`), and strictly
increases `updated_at`, because every stored timestamp predates the
commit clock of the update. -/
theorem C5_update_frame (σ : DBState) (i : Nat) (c d : List Char) (n n' : Note)
    (hwf : WF σ) (hn : get_note_by_id σ i = some n) (hv : validate c = Except.ok d)
    (hu : (update_note σ i d false).1 = Except.ok (some n')) :
    n'.id = n.id ∧ n'.created_at = n.created_at ∧ n.updated_at < n'.updated_at := by
  obtain ⟨hstr, hne⟩ := validate_ok_strip c d hv
  have hfound := update_note_found σ i n d false hn hne (by rw [hstr]; exact hne)
  rw [if_neg (by simp)] at hfound
  rw [hfound] at hu
  have hn' : n' = ⟨n.id, pyStrip d, n.created_at, σ.now⟩ :=
    (Option.some.inj (Except.ok.inj hu)).symm
  subst hn'
  refine ⟨rfl, rfl, ?_⟩
  unfold get_note_by_id at hn
  have hmem : n ∈ σ.notes := List.mem_of_find?_eq_some hn
  exact (hwf.2 n hmem).2.1

/-- Witness for C5 at a concrete one-note state. -/
theorem C5_witness :
    (⟨0, pyStrip ['b'], 0, 1⟩ : Note).id = (⟨0, ['a'], 0, 0⟩ : Note).id ∧
    (⟨0, pyStrip ['b'], 0, 1⟩ : Note).created_at = (⟨0, ['a'], 0, 0⟩ : Note).created_at ∧
    (⟨0, ['a'], 0, 0⟩ : Note).updated_at < (⟨0, pyStrip ['b'], 0, 1⟩ : Note).updated_at :=
  C5_update_frame ⟨[⟨0, ['a'], 0, 0⟩], 1, 1⟩ 0 ['b'] ['b'] ⟨0, ['a'], 0, 0⟩
    ⟨0, pyStrip ['b'], 0, 1⟩ (by decide) (by decide) (by decide) (by decide)

/-- Claim C6: delete returns `false` (and not an error) exactly when the
id is absent and `true` when present, and in either case a subsequent
lookup of that id yields NotFound. -/
theorem C6_delete (σ : DBState) (i : Nat) (hwf : WF σ) :
    (delete_note σ i false).1 = Except.ok (get_note_by_id σ i).isSome ∧
    get_note_by_id (delete_note σ i false).2 i = none := by
  cases hn : get_note_by_id σ i with
  | none =>
      rw [delete_note_notfound σ i false hn]
      exact ⟨rfl, hn⟩
  | some n =>
      have hd := delete_note_found σ i n false hn
      rw [if_neg (by simp)] at hd
      rw [hd]
      refine ⟨rfl, ?_⟩
      unfold get_note_by_id
      exact find?_eraseP_eq_none hwf.1

/-- Witness for C6 at a concrete one-note state, for a present and an
absent id. -/
theorem C6_witness :
    ((delete_note ⟨[⟨0, ['a'], 0, 0⟩], 1, 1⟩ 0 false).1 =
        Except.ok (get_note_by_id ⟨[⟨0, ['a'], 0, 0⟩], 1, 1⟩ 0).isSome ∧
      get_note_by_id (delete_note ⟨[⟨0, ['a'], 0, 0⟩], 1, 1⟩ 0 false).2 0 = none) ∧
    ((delete_note ⟨[⟨0, ['a'], 0, 0⟩], 1, 1⟩ 7 false).1 =
        Except.ok (get_note_by_id ⟨[⟨0, ['a'], 0, 0⟩], 1, 1⟩ 7).isSome ∧
      get_note_by_id (delete_note ⟨[⟨0, ['a'], 0, 0⟩], 1, 1⟩ 7 false).2 7 = none) :=
  ⟨C6_delete ⟨[⟨0, ['a'], 0, 0⟩], 1, 1⟩ 0 (by decide),
   C6_delete ⟨[⟨0, ['a'], 0, 0⟩], 1, 1⟩ 7 (by decide)⟩

/-- Claim C7: an out-of-range offset yields the empty list (the operation
is a total function, so it cannot raise), and the first and second page of
size N have disjoint id sets when at least 2N records exist. -/
theorem C7_pagination (σ : DBState) (skip limit N : Nat) (hwf : WF σ) :
    (σ.notes.length ≤ skip → get_all_notes σ skip limit = []) ∧
    (2 * N ≤ σ.notes.length →
      List.Disjoint ((get_all_notes σ 0 N).map Note.id)
        ((get_all_notes σ N N).map Note.id)) := by
  constructor
  · intro h
    unfold get_all_notes
    rw [List.drop_eq_nil_of_le h, List.take_nil]
  · intro hlen
    unfold get_all_notes
    rw [List.drop_zero]
    have h1 : List.Disjoint ((σ.notes.map Note.id).take N)
        ((σ.notes.map Note.id).drop N) :=
      List.disjoint_take_drop hwf.1 le_rfl
    intro x hx1 hx2
    rw [List.map_take] at hx1
    rw [List.map_take, List.map_drop] at hx2
    exact h1 hx1 (List.take_subset _ _ hx2)

/-- Witness for C7 at a concrete two-note state with N = 1 and an
out-of-range offset 5. -/
theorem C7_witness :
    get_all_notes ⟨[⟨0, ['a'], 0, 0⟩, ⟨1, ['b'], 0, 0⟩], 2, 1⟩ 5 3 = [] ∧
    List.Disjoint
      ((get_all_notes ⟨[⟨0, ['a'], 0, 0⟩, ⟨1, ['b'], 0, 0⟩], 2, 1⟩ 0 1).map Note.id)
      ((get_all_notes ⟨[⟨0, ['a'], 0, 0⟩, ⟨1, ['b'], 0, 0⟩], 2, 1⟩ 1 1).map Note.id) :=
  ⟨(C7_pagination ⟨[⟨0, ['a'], 0, 0⟩, ⟨1, ['b'], 0, 0⟩], 2, 1⟩ 5 3 1 (by decide)).1
      (by decide),
   (C7_pagination ⟨[⟨0, ['a'], 0, 0⟩, ⟨1, ['b'], 0, 0⟩], 2, 1⟩ 5 3 1 (by decide)).2
      (by decide)⟩

/-- Claim C8: when the commit of a create, update, or delete raises a
storage error, the operation re-raises exactly that storage error and the
resulting state is the pre-operation state (rollback, no partial state).
For update and delete the commit is only reached when the record exists
and (for update) the content is valid. -/
theorem C8_atomic_rollback (σ : DBState) (i : Nat) (c d : List Char) (n : Note)
    (hv : validate c = Except.ok d) :
    create_note σ d true = (Except.error ServiceError.storage, σ) ∧
    (get_note_by_id σ i = some n →
      update_note σ i d true = (Except.error ServiceError.storage, σ)) ∧
    (get_note_by_id σ i = some n →
      delete_note σ i true = (Except.error ServiceError.storage, σ)) := by
  obtain ⟨hstr, hne⟩ := validate_ok_strip c d hv
  refine ⟨rfl, ?_, ?_⟩
  · intro hn
    rw [update_note_found σ i n d true hn hne (by rw [hstr]; exact hne), if_pos rfl]
  · intro hn
    rw [delete_note_found σ i n true hn, if_pos rfl]

/-- Witness for C8 at a concrete one-note state. -/
theorem C8_witness :
    create_note ⟨[⟨0, ['a'], 0, 0⟩], 1, 1⟩ ['b'] true =
      (Except.error ServiceError.storage, ⟨[⟨0, ['a'], 0, 0⟩], 1, 1⟩) ∧
    update_note ⟨[⟨0, ['a'], 0, 0⟩], 1, 1⟩ 0 ['b'] true =
      (Except.error ServiceError.storage, ⟨[⟨0, ['a'], 0, 0⟩], 1, 1⟩) ∧
    delete_note ⟨[⟨0, ['a'], 0, 0⟩], 1, 1⟩ 0 true =
      (Except.error ServiceError.storage, ⟨[⟨0, ['a'], 0, 0⟩], 1, 1⟩) :=
  ⟨(C8_atomic_rollback ⟨[⟨0, ['a'], 0, 0⟩], 1, 1⟩ 0 ['b'] ['b'] ⟨0, ['a'], 0, 0⟩
      (by decide)).1,
   (C8_atomic_rollback ⟨[⟨0, ['a'], 0, 0⟩], 1, 1⟩ 0 ['b'] ['b'] ⟨0, ['a'], 0, 0⟩
      (by decide)).2.1 (by decide),
   (C8_atomic_rollback ⟨[⟨0, ['a'], 0, 0⟩], 1, 1⟩ 0 ['b'] ['b'] ⟨0, ['a'], 0, 0⟩
      (by decide)).2.2 (by decide)⟩

/-- Claim C9: the content invariant (non-empty, not whitespace-only, equal
to its own stripped form) holds for every note stored by create or update
with validated content, and is preserved by create, update, and delete,
whether the commit succeeds or fails. -/
theorem C9_invariant_preserved (σ : DBState) (i : Nat) (c d : List Char)
    (fail : Bool) (hok : NotesOK σ) (hv : validate c = Except.ok d) :
    NotesOK (create_note σ d fail).2 ∧ NotesOK (update_note σ i d fail).2 ∧
    NotesOK (delete_note σ i fail).2 := by
  obtain ⟨hstr, hne⟩ := validate_ok_strip c d hv
  have hCOK : ∀ a b1 b2 : Nat, ContentOK ⟨a, d, b1, b2⟩ := by
    intro a b1 b2
    exact ⟨hne, by rw [hstr]; exact hne, hstr⟩
  refine ⟨?_, ?_, ?_⟩
  · cases fail with
    | true => exact hok
    | false =>
        intro m hm
        rcases List.mem_append.mp hm with h1 | h2
        · exact hok m h1
        · have hm2 : m = ⟨σ.nextId, d, σ.now, σ.now⟩ := by simpa using h2
          rw [hm2]
          exact hCOK σ.nextId σ.now σ.now
  · cases hn : get_note_by_id σ i with
    | none =>
        rw [update_note_notfound σ i d fail hn]
        exact hok
    | some n =>
        have hfound := update_note_found σ i n d fail hn hne (by rw [hstr]; exact hne)
        cases fail with
        | true =>
            rw [hfound, if_pos rfl]
            exact hok
        | false =>
            rw [hfound, if_neg (by simp)]
            intro m hm
            rcases mem_replaceFirstById hm with h1 | h2
            · exact hok m h1
            · rw [h2]
              have : ContentOK ⟨n.id, pyStrip d, n.created_at, σ.now⟩ := by
                rw [hstr]
                exact hCOK n.id n.created_at σ.now
              exact this
  · cases hn : get_note_by_id σ i with
    | none =>
        rw [delete_note_notfound σ i fail hn]
        exact hok
    | some n =>
        have hd := delete_note_found σ i n fail hn
        cases fail with
        | true =>
            rw [hd, if_pos rfl]
            exact hok
        | false =>
            rw [hd, if_neg (by simp)]
            intro m hm
            exact hok m ((List.eraseP_sublist _).subset hm)

/-- Witness for C9 at a concrete one-note state. -/
theorem C9_witness :
    NotesOK (create_note ⟨[⟨0, ['a'], 0, 0⟩], 1, 1⟩ ['b'] false).2 ∧
    NotesOK (update_note ⟨[⟨0, ['a'], 0, 0⟩], 1, 1⟩ 0 ['b'] false).2 ∧
    NotesOK (delete_note ⟨[⟨0, ['a'], 0, 0⟩], 1, 1⟩ 0 false).2 :=
  C9_invariant_preserved ⟨[⟨0, ['a'], 0, 0⟩], 1, 1⟩ 0 ['b'] ['b'] false
    (by decide) (by decide)

/-- Claim C10: the home-page handler lists notes through the service's
default pagination arguments offset 0 and limit 100, so it returns at
most 100 records whatever the store holds. -/
theorem C10_default_pagination (σ : DBState) :
    web_index σ = get_all_notes σ 0 100 ∧ (web_index σ).length ≤ 100 := by
  refine ⟨rfl, ?_⟩
  unfold web_index get_all_notes
  exact List.length_take_le 100 _

end NotesApp
